import Mathlib

/-!
# Verification of the AI-trader Trading Decision & Risk Engine

Shallow embedding of the decision core of the AI-trader repository:
`RiskManager` (risk scoring, position sizing, stop-loss validation,
portfolio risk), the `TradingAgent` position lifecycle
(`CopyTradingAgent.js`), the `PerformanceAnalyzer` profitability metrics
and the `BacktestEngine` replay loop.

JavaScript numbers are modeled as `ℚ`.  Fields that may be `undefined`
in the source are modeled as `Option ℚ`; the JavaScript idiom `x || d`
(which also treats `0` as falsy) is modeled by `jsOr`.  Division is
exact; the only places where JavaScript division by zero (yielding
`Infinity` or `NaN`) influences a branch are modeled explicitly by
`jsRatioGt`.
-/

namespace AITrader

/-- JavaScript `x || d` for a possibly-absent numeric field: `undefined`
and `0` are falsy and give the default. -/
def jsOr (x : Option ℚ) (d : ℚ) : ℚ :=
  match x with
  | none => d
  | some v => if v = 0 then d else v

/-- JavaScript truth value of `a / b > c`.  For `b = 0` the quotient is
`Infinity` (when `a > 0`, comparison true), `NaN` (when `a = 0`, false)
or `-Infinity` (when `a < 0`, false). -/
def jsRatioGt (a b c : ℚ) : Bool :=
  if b = 0 then decide (0 < a) else decide (c < a / b)

/-- A token record as consumed by `RiskManager` (fields of the
CoinGecko shape actually read by the code). -/
structure Token where
  symbol : String
  name : String
  market_cap : Option ℚ
  price_change_percentage_24h : Option ℚ
  total_volume : Option ℚ
deriving DecidableEq, Repr

/-- The configuration slice read by `RiskManager`
(`config.trading.*`). -/
structure TradingConfig where
  maxPositionSize : ℚ
  riskPercentage : ℚ
  maxPortfolioRisk : ℚ
  maxActivePositions : ℕ
deriving DecidableEq, Repr

inductive Recommendation
  | PROCEED
  | REDUCE_SIZE
  | REJECT
deriving DecidableEq, Repr

/-- The risk-score object produced by `RiskManager.assessTradeRisk`:
`overall`, the `factors` map (a factor is present exactly when its
branch fired) and the recommendation. -/
structure RiskScore where
  overall : ℚ
  factorMarketCap : Option ℚ := none
  factorVolatility : Option ℚ := none
  factorLiquidity : Option ℚ := none
  factorPositionSize : Option ℚ := none
  factorCorrelation : Option ℚ := none
  factorTiming : Option ℚ := none
  factorError : Option ℚ := none
  recommendation : Recommendation
deriving DecidableEq, Repr

/-- A lifecycle position as built by `TradingAgent.executePaperTrade`. -/
structure Position where
  id : String
  token : Token
  action : String
  size : ℚ
  entryPrice : ℚ
  currentPrice : ℚ
  stopLoss : ℚ
  takeProfit : ℚ
  confidence : ℚ
  openTime : ℚ
  status : String
  pnl : ℚ
  closeTime : Option ℚ := none
  closePrice : Option ℚ := none
  closeReason : Option String := none
deriving DecidableEq, Repr

/-- A trading opportunity as consumed by `assessTradeRisk` and
`evaluateOpportunity`.  `token` is `Option` because an absent `token`
makes the property accesses in `assessTradeRisk` throw (the modeled
internal-failure path). -/
structure Opportunity where
  token : Option Token
  entry : ℚ
  stopLoss : ℚ
  takeProfit : ℚ
  confidence : Option ℚ
  type : Option String := none
deriving DecidableEq, Repr

/-- Embedding of `RiskManager.areTokensSimilar`: both tokens mention a common
memecoin keyword in their (lowercased) symbol or name. -/
def memeWords : List String := ["doge", "shib", "inu", "moon", "safe", "baby"]

def tokenHasWord (t : Token) (w : String) : Bool :=
  decide (w.data <:+: t.symbol.toLower.data) || decide (w.data <:+: t.name.toLower.data)

def areTokensSimilar (t1 t2 : Token) : Bool :=
  memeWords.any (fun w => tokenHasWord t1 w && tokenHasWord t2 w)

/-- Embedding of `RiskManager.calculatePositionSize`: base from confidence, scaled
by `1 - riskScore.overall`, capped at
`portfolioValue * riskPercentage / 100`, then floored at 10. -/
def calculatePositionSize (cfg : TradingConfig) (confidence : ℚ)
    (riskScore : RiskScore) (portfolioValue : ℚ) : ℚ :=
  let baseSize := cfg.maxPositionSize * confidence
  let riskAdjustment := 1 - riskScore.overall
  let baseSize := baseSize * riskAdjustment
  let maxPortfolioRisk := portfolioValue * (cfg.riskPercentage / 100)
  let baseSize := min baseSize maxPortfolioRisk
  max baseSize 10

/-- Market-cap increment of `assessTradeRisk`. -/
def marketCapRisk (marketCap : ℚ) : ℚ :=
  if marketCap < 100000 then 4/10 else if marketCap < 1000000 then 2/10 else 0

/-- Volatility increment of `assessTradeRisk` (argument is the
absolute 24h price change). -/
def volatilityRisk (priceChange : ℚ) : ℚ :=
  if 50 < priceChange then 3/10 else if 20 < priceChange then 1/10 else 0

/-- Liquidity increment of `assessTradeRisk`. -/
def liquidityRisk (volume : ℚ) : ℚ :=
  if volume < 50000 then 3/10 else if volume < 100000 then 1/10 else 0

/-- Position-size increment of `assessTradeRisk`:
`positionSize / portfolioValue > 0.1`. -/
def positionSizeRisk (positionSize portfolioValue : ℚ) : ℚ :=
  if jsRatioGt positionSize portfolioValue (1/10) then 2/10 else 0

/-- Correlation increment of `assessTradeRisk`: some open position
holds a similar token. -/
def correlationRisk (currentPositions : List Position) (token : Token) : ℚ :=
  if (currentPositions.filter (fun p => areTokensSimilar p.token token)).length > 0
  then 2/10 else 0

/-- Timing increment of `assessTradeRisk`: outside major trading
hours. -/
def timingRisk (utcHour : ℕ) : ℚ :=
  if utcHour < 6 ∨ 22 < utcHour then 1/10 else 0

/-- The successful (non-throwing) body of
`RiskManager.assessTradeRisk`, for an opportunity whose `token` field
is present.  `utcHour` is `new Date().getUTCHours()`. -/
def assessTradeRiskCore (cfg : TradingConfig) (token : Token) (entry : ℚ)
    (confidence : Option ℚ) (currentPositions : List Position)
    (portfolioValue : ℚ) (utcHour : ℕ) : RiskScore :=
  let mRisk := marketCapRisk (jsOr token.market_cap 0)
  let vRisk := volatilityRisk |jsOr token.price_change_percentage_24h 0|
  let lRisk := liquidityRisk (jsOr token.total_volume 0)
  let positionSize := entry * jsOr confidence (1/2) * cfg.maxPositionSize
  let sRisk := positionSizeRisk positionSize portfolioValue
  let cRisk := correlationRisk currentPositions token
  let tRisk := timingRisk utcHour
  let overall := mRisk + vRisk + lRisk + sRisk + cRisk + tRisk
  { overall := overall
    factorMarketCap := if mRisk = 0 then none else some mRisk
    factorVolatility := if vRisk = 0 then none else some vRisk
    factorLiquidity := if lRisk = 0 then none else some lRisk
    factorPositionSize := if sRisk = 0 then none else some sRisk
    factorCorrelation := if cRisk = 0 then none else some cRisk
    factorTiming := if tRisk = 0 then none else some tRisk
    recommendation :=
      if (7 : ℚ)/10 < overall then .REJECT
      else if (4 : ℚ)/10 < overall then .REDUCE_SIZE
      else .PROCEED }

/-- Embedding of `RiskManager.assessTradeRisk` with its `try/catch`: an absent
`token` field makes the first property access throw, and the `catch`
returns `overall = 1.0`, `REJECT`, `factors = \x7b error: 1.0 \x7d`. -/
def assessTradeRisk (cfg : TradingConfig) (opportunity : Opportunity)
    (currentPositions : List Position) (portfolioValue : ℚ)
    (utcHour : ℕ) : RiskScore :=
  match opportunity.token with
  | none =>
      { overall := 1, recommendation := .REJECT, factorError := some 1 }
  | some t =>
      assessTradeRiskCore cfg t opportunity.entry opportunity.confidence
        currentPositions portfolioValue utcHour

/-- Result record of `RiskManager.validateStopLoss`. -/
structure StopLossValidation where
  isValid : Bool
  percentage : ℚ
  recommendation : String
deriving DecidableEq, Repr

/-- Embedding of `RiskManager.validateStopLoss`: relative distance of the stop loss
from the entry price must lie in the closed band `[0.02, 0.20]`. -/
def validateStopLoss (entryPrice stopLoss : ℚ) : StopLossValidation :=
  let stopLossPercent := |entryPrice - stopLoss| / entryPrice
  { isValid := decide (2/100 ≤ stopLossPercent ∧ stopLossPercent ≤ 20/100)
    percentage := stopLossPercent * 100
    recommendation :=
      if stopLossPercent < 2/100 then "Increase stop loss"
      else if 20/100 < stopLossPercent then "Decrease stop loss"
      else "Valid" }

/-- The stop-loss adjustment step of `TradingAgent.evaluateOpportunity`
(lines 727-732): an invalid stop loss is replaced by
`entry * (1 - 0.05)`; a valid one is kept. -/
def adjustStopLoss (entry stopLoss : ℚ) : ℚ :=
  if (validateStopLoss entry stopLoss).isValid then stopLoss
  else entry * (1 - 5/100)

/-- The below-minimum rejection test of
`TradingAgent.evaluateOpportunity` (line 722): `positionSize < 10`. -/
def belowMinimumReject (positionSize : ℚ) : Bool :=
  decide (positionSize < 10)

/-! ## Portfolio risk (`RiskManager.assessPortfolioRisk`) -/

/-- A portfolio position as read by `assessPortfolioRisk`:
`size`, optional `currentValue`, and the token (for concentration). -/
structure PortfolioPosition where
  token : Token
  size : ℚ
  currentValue : Option ℚ := none
deriving DecidableEq, Repr

/-- The wallet balance object (`walletBalance.sol`). -/
structure WalletBalance where
  sol : Option ℚ
deriving DecidableEq, Repr

inductive RiskLevel
  | LOW
  | MEDIUM
  | HIGH
  | ERROR
deriving DecidableEq, Repr

/-- Embedding of `RiskManager.calculatePortfolioValue`: SOL at a fixed 100 USD demo
price plus the positions held at `currentValue || size`. -/
def calculatePortfolioValue (positions : List PortfolioPosition)
    (walletBalance : WalletBalance) : ℚ :=
  let solValue := jsOr walletBalance.sol 0 * 100
  let tokenValue := positions.foldl (fun sum pos => sum + jsOr pos.currentValue pos.size) 0
  solValue + tokenValue

/-- Accumulate a position size under its symbol, preserving JavaScript
object insertion order (`calculateTokenConcentration`). -/
def addSymbolTotal : List (String × ℚ) → String → ℚ → List (String × ℚ)
  | [], s, v => [(s, v)]
  | (s', v') :: rest, s, v =>
      if s' = s then (s', v' + v) :: rest else (s', v') :: addSymbolTotal rest s v

/-- Per-symbol position-size totals of `calculateTokenConcentration`,
before division by the total. -/
def symbolTotals (positions : List PortfolioPosition) : List (String × ℚ) :=
  positions.foldl (fun acc pos => addSymbolTotal acc pos.token.symbol pos.size) []

/-- The concentration test of `assessPortfolioRisk`:
`Math.max(...Object.values(tokenExposure)) > 0.3`, where each exposure
is a per-symbol size total divided by the total position value.
`Math.max()` of no arguments is `-Infinity` (test false); with a zero
total the shares are `Infinity`, `NaN` or `-Infinity` and `Math.max`
propagates `NaN` (test false if any share is `NaN`, otherwise true
exactly when some share is `Infinity`). -/
def concentrationExceeds (positions : List PortfolioPosition) : Bool :=
  let totals := symbolTotals positions
  let totalValue := positions.foldl (fun sum pos => sum + pos.size) 0
  if totals.isEmpty then false
  else if totalValue = 0 then
    if totals.any (fun sv => sv.2 = 0) then false
    else totals.any (fun sv => 0 < sv.2)
  else totals.any (fun sv => decide ((3 : ℚ)/10 < sv.2 / totalValue))

/-- Result of `assessPortfolioRisk` (the fields the claims are about). -/
structure PortfolioRiskAssessment where
  totalValue : ℚ
  exposure : ℚ
  positionCount : ℕ
  riskLevel : RiskLevel
deriving DecidableEq, Repr

/-- The exposure test of `assessPortfolioRisk`:
`activePositionValue / totalPortfolioValue > maxPortfolioRisk` with
JavaScript division-by-zero semantics. -/
def exposureExceeds (cfg : TradingConfig) (activeValue totalValue : ℚ) : Bool :=
  jsRatioGt activeValue totalValue cfg.maxPortfolioRisk

/-- Embedding of `RiskManager.assessPortfolioRisk` (success path): `riskLevel`
starts `LOW` and is then ASSIGNED (not escalated) by four sequential
checks: exposure (`HIGH`), position count (`MEDIUM`), oversized
positions (`MEDIUM`), single-token concentration (`HIGH`). -/
def assessPortfolioRisk (cfg : TradingConfig)
    (positions : List PortfolioPosition) (walletBalance : WalletBalance) :
    PortfolioRiskAssessment :=
  let totalPortfolioValue := calculatePortfolioValue positions walletBalance
  let activePositionValue := positions.foldl (fun sum pos => sum + pos.size) 0
  let level0 := RiskLevel.LOW
  let level1 :=
    if exposureExceeds cfg activePositionValue totalPortfolioValue
    then RiskLevel.HIGH else level0
  let level2 :=
    if positions.length > cfg.maxActivePositions then RiskLevel.MEDIUM else level1
  let oversized := positions.filter (fun pos => decide (cfg.maxPositionSize < pos.size))
  let level3 := if oversized.length > 0 then RiskLevel.MEDIUM else level2
  let level4 := if concentrationExceeds positions then RiskLevel.HIGH else level3
  { totalValue := totalPortfolioValue
    exposure := if totalPortfolioValue = 0 then 0
      else activePositionValue / totalPortfolioValue
    positionCount := positions.length
    riskLevel := level4 }

/-! ## Position lifecycle (`TradingAgent` in `CopyTradingAgent.js`) -/

/-- JavaScript truthiness of an optional numeric factor. -/
def jsTruthy (x : Option ℚ) : Bool :=
  match x with
  | none => false
  | some v => decide (v ≠ 0)

/-- Embedding of `TradingAgent.generateTradeReason`: human-readable reason tags,
joined with a comma; the empty join is falsy and yields the default
tag. -/
def generateTradeReason (opportunity : Opportunity) (sentiment : ℚ)
    (riskScore : RiskScore) : String :=
  let reasons : List String :=
    (if (7 : ℚ)/10 < opportunity.confidence.getD 0 then ["High confidence signal"] else [])
    ++ (if (2 : ℚ)/10 < sentiment then ["Bullish market sentiment"] else [])
    ++ (if opportunity.type = some "memecoin" then ["Memecoin opportunity"] else [])
    ++ (if riskScore.overall < 3/10 then ["Low risk profile"] else [])
    ++ (if jsTruthy riskScore.factorMarketCap then ["Market cap consideration"] else [])
    ++ (if jsTruthy riskScore.factorLiquidity then ["Liquidity analysis"] else [])
  let joined := String.intercalate ", " reasons
  if joined = "" then "Technical analysis signal" else joined

/-- The trading decision object built by
`TradingAgent.evaluateOpportunity` (lines 735-746).  Its `action` is
the literal `"buy"`. -/
structure Decision where
  action : String
  token : Token
  confidence : ℚ
  positionSize : ℚ
  entry : ℚ
  stopLoss : ℚ
  takeProfit : ℚ
  riskScore : RiskScore
  timestamp : ℚ
  reason : String
deriving DecidableEq, Repr

/-- The decision record constructed at the end of
`TradingAgent.evaluateOpportunity`: `action` is hard-coded to `"buy"`
and `stopLoss` is the (possibly auto-corrected) stop loss. -/
def mkDecision (t : Token) (opportunity : Opportunity) (sentiment : ℚ)
    (adjustedConfidence positionSize : ℚ) (riskScore : RiskScore)
    (now : ℚ) : Decision :=
  { action := "buy"
    token := t
    confidence := adjustedConfidence
    positionSize := positionSize
    entry := opportunity.entry
    stopLoss := adjustStopLoss opportunity.entry opportunity.stopLoss
    takeProfit := opportunity.takeProfit
    riskScore := riskScore
    timestamp := now
    reason := generateTradeReason opportunity sentiment riskScore }

/-- Embedding of `TradingAgent.calculatePnL`. -/
def calculatePnL (position : Position) : ℚ :=
  let priceChange := position.currentPrice - position.entryPrice
  let percentChange := priceChange / position.entryPrice * 100
  if position.action = "buy" then position.size * percentChange / 100
  else -(position.size * percentChange) / 100

/-- Embedding of `TradingAgent.shouldClosePosition`: first matching exit reason, or
`none` for the JavaScript `false`.  Note it never inspects
`position.status`. -/
def shouldClosePosition (position : Position) (now : ℚ) : Option String :=
  if position.action = "buy" ∧ position.currentPrice ≤ position.stopLoss then
    some "stop_loss"
  else if position.action = "buy" ∧ position.takeProfit ≤ position.currentPrice then
    some "take_profit"
  else if 24 < (now - position.openTime) / (1000 * 60 * 60) then
    some "time_exit"
  else none

/-- A `tradingHistory` entry: a spread copy of a position plus either
the open-time `reason` or the close-time `finalPnL`. -/
structure HistEntry where
  pos : Position
  reason : Option String := none
  finalPnL : Option ℚ := none
deriving DecidableEq, Repr

/-- The mutable trading state owned by `TradingAgent`. -/
structure TradingState where
  activePositions : List Position
  tradingHistory : List HistEntry
  totalPnL : ℚ
  dailyPnL : ℚ
deriving DecidableEq, Repr

/-- Embedding of `TradingAgent.closePosition`.  It recomputes
`shouldClosePosition`; when that is `false` the access
`closeReason.reason` throws after the status fields were already
mutated, and the `catch` swallows the error (first component of the
result unchanged).  When a reason is found it marks the position
closed, filters it out of `activePositions` by id, adds its `pnl` to
`totalPnL` and appends a history record.  The returned `Position` is
the mutated position object. -/
def closePosition (st : TradingState) (position : Position) (now : ℚ) :
    TradingState × Position :=
  match shouldClosePosition position now with
  | none =>
      (st, { position with status := "closed", closeTime := some now,
                           closePrice := some position.currentPrice })
  | some reason =>
      let position' := { position with
        status := "closed"
        closeTime := some now
        closePrice := some position.currentPrice
        closeReason := some reason }
      ({ st with
          activePositions := st.activePositions.filter (fun p => p.id ≠ position.id)
          totalPnL := st.totalPnL + position'.pnl
          tradingHistory := st.tradingHistory
            ++ [{ pos := position', finalPnL := some position'.pnl }] },
       position')

/-- Embedding of `TradingAgent.executePaperTrade`: build an OPEN position from the
decision, add it to `activePositions` and append an open-time history
record carrying the `reason` of the decision. -/
def executePaperTrade (st : TradingState) (decision : Decision)
    (id : String) (now : ℚ) : TradingState :=
  let position : Position :=
    { id := id
      token := decision.token
      action := decision.action
      size := decision.positionSize
      entryPrice := decision.entry
      currentPrice := decision.entry
      stopLoss := decision.stopLoss
      takeProfit := decision.takeProfit
      confidence := decision.confidence
      openTime := now
      status := "open"
      pnl := 0 }
  { st with
      activePositions := st.activePositions ++ [position]
      tradingHistory := st.tradingHistory ++ [{ pos := position, reason := some decision.reason }] }

/-- The price-refresh step of `TradingAgent.updatePositions` for one
position: set `currentPrice`, recompute `pnl`. -/
def refreshPosition (position : Position) (newPrice : ℚ) : Position :=
  let position' := { position with currentPrice := newPrice }
  { position' with pnl := calculatePnL position' }

def modifyAt (l : List Position) (i : ℕ) (f : Position → Position) : List Position :=
  match l, i with
  | [], _ => []
  | p :: ps, 0 => f p :: ps
  | p :: ps, Nat.succ n => p :: modifyAt ps n f

/-- Refresh the price of the `i`-th active position. -/
def refreshPositionAt (st : TradingState) (i : ℕ) (newPrice : ℚ) : TradingState :=
  { st with activePositions := modifyAt st.activePositions i (fun p => refreshPosition p newPrice) }

/-- Trading states reachable through the lifecycle manager alone:
start empty; open paper positions from decisions built by
`evaluateOpportunity`; refresh prices; close active positions. -/
inductive ReachableState : TradingState → Prop
  | init :
      ReachableState { activePositions := [], tradingHistory := [], totalPnL := 0, dailyPnL := 0 }
  | openPaper (st : TradingState) (t : Token) (opportunity : Opportunity)
      (sentiment adjustedConfidence positionSize : ℚ) (riskScore : RiskScore)
      (id : String) (now : ℚ) :
      ReachableState st →
      ReachableState (executePaperTrade st
        (mkDecision t opportunity sentiment adjustedConfidence positionSize riskScore now) id now)
  | refresh (st : TradingState) (i : ℕ) (newPrice : ℚ) :
      ReachableState st → ReachableState (refreshPositionAt st i newPrice)
  | close (st : TradingState) (position : Position) (now : ℚ) :
      ReachableState st → position ∈ st.activePositions →
      ReachableState (closePosition st position now).1

/-! ## Performance analytics (`PerformanceAnalyzer.analyzeProfitability`) -/

/-- The fields of a trade record read by `analyzeProfitability`. -/
structure ATrade where
  action : String
  pnl : Option ℚ
deriving DecidableEq, Repr

/-- Embedding of `trades.filter(t => t.action === "sell" and t.pnl defined)`. -/
def closedTradesOf (trades : List ATrade) : List ATrade :=
  trades.filter (fun t => decide (t.action = "sell") && t.pnl.isSome)

def tradePnl (t : ATrade) : ℚ := t.pnl.getD 0

def winningOf (trades : List ATrade) : List ATrade :=
  (closedTradesOf trades).filter (fun t => decide (0 < tradePnl t))

def losingOf (trades : List ATrade) : List ATrade :=
  (closedTradesOf trades).filter (fun t => decide (tradePnl t ≤ 0))

def totalWinsOf (trades : List ATrade) : ℚ :=
  (winningOf trades).foldl (fun sum t => sum + tradePnl t) 0

def totalLossesOf (trades : List ATrade) : ℚ :=
  |(losingOf trades).foldl (fun sum t => sum + tradePnl t) 0|

/-- The profit factor: a plain quotient, or the explicit JavaScript
`Infinity` sentinel. -/
inductive ProfitFactor
  | num (value : ℚ)
  | infinite
deriving DecidableEq, Repr

structure Profitability where
  winRate : ℚ
  profitFactor : ProfitFactor
  averageWin : ℚ
  averageLoss : ℚ
  largestWin : ℚ
  largestLoss : ℚ
  winningTrades : ℕ
  losingTrades : ℕ
deriving DecidableEq, Repr

/-- The all-zero record returned on an empty closed-trade set. -/
def zeroProfitability : Profitability :=
  { winRate := 0, profitFactor := .num 0, averageWin := 0, averageLoss := 0,
    largestWin := 0, largestLoss := 0, winningTrades := 0, losingTrades := 0 }

/-- Embedding of `PerformanceAnalyzer.analyzeProfitability`. -/
def analyzeProfitability (trades : List ATrade) : Profitability :=
  let closedTrades := closedTradesOf trades
  if closedTrades.isEmpty then zeroProfitability
  else
    let winningTrades := winningOf trades
    let losingTrades := losingOf trades
    let totalWins := totalWinsOf trades
    let totalLosses := totalLossesOf trades
    { winRate := (winningTrades.length : ℚ) / (closedTrades.length : ℚ) * 100
      profitFactor :=
        if 0 < totalLosses then .num (totalWins / totalLosses)
        else if 0 < totalWins then .infinite
        else .num 0
      averageWin := if 0 < winningTrades.length then totalWins / (winningTrades.length : ℚ) else 0
      averageLoss := if 0 < losingTrades.length then totalLosses / (losingTrades.length : ℚ) else 0
      largestWin :=
        match winningTrades.map tradePnl with
        | [] => 0
        | x :: xs => xs.foldl max x
      largestLoss :=
        match losingTrades.map tradePnl with
        | [] => 0
        | x :: xs => xs.foldl min x
      winningTrades := winningTrades.length
      losingTrades := losingTrades.length }

/-- The projection of a lifecycle `tradingHistory` entry to the fields
the analyzer reads: a spread position record has the `action` of the
position and its numeric `pnl`. -/
def histToATrade (e : HistEntry) : ATrade :=
  { action := e.pos.action, pnl := some e.pos.pnl }

/-! ## Backtest simulator (`BacktestEngine` in `PerformanceAnalyzer.js` blob)

`Date.now()` and `Math.random()` are ambient inputs of the engine: the
`n`-th call of each is modeled by the streams of an explicit
environment, consumed left to right in source order.  A position id
`pos_$\x7bDate.now()\x7d_$\x7b...random...\x7d` is modeled by the pair
of draws that produced it. -/

/-- The ambient clock and random number generator. -/
structure Env where
  clock : ℕ → ℚ
  rand : ℕ → ℚ

/-- One point of the historical price series. -/
structure DataPoint where
  timestamp : ℚ
  price : ℚ
  change24h : Option ℚ := none
  marketCap : Option ℚ := none
  volume : Option ℚ := none
deriving DecidableEq, Repr

/-- The mock token object built by `checkEntrySignals`. -/
structure BTToken where
  symbol : String
  name : String
  current_price : ℚ
  price_change_percentage_24h : ℚ
  market_cap : ℚ
  total_volume : ℚ
deriving DecidableEq, Repr

/-- A backtest portfolio position (`BacktestEngine.openPosition`). -/
structure BTPosition where
  id : ℚ × ℚ
  symbol : String
  quantity : ℚ
  entryPrice : ℚ
  cost : ℚ
  entryTime : ℚ
  confidence : ℚ
  currentValue : ℚ
  unrealizedPnL : ℚ
deriving DecidableEq, Repr

/-- A backtest trade record (the entries of the `trades` array). -/
structure BTrade where
  id : ℚ × ℚ
  action : String
  symbol : String
  quantity : ℚ
  price : ℚ
  value : ℚ
  timestamp : ℚ
  confidence : Option ℚ := none
  pnl : Option ℚ := none
  reason : Option String := none
  holdTime : Option ℚ := none
deriving DecidableEq, Repr

/-- The caller-supplied strategy: `analyze(...).confidence`,
`shouldExit(position, price, timeHeld)` and
`getPositionSize(confidence, totalValue)`. -/
structure Strategy where
  analyzeConfidence : BTToken → ℚ
  shouldExit : BTPosition → ℚ → ℚ → Option String
  getPositionSize : ℚ → ℚ → ℚ

/-- The `config` argument of `runBacktest` (fields read, all with
`||` defaults). -/
structure BTConfig where
  initialCash : Option ℚ := none
  minConfidence : Option ℚ := none
  maxPositions : Option ℕ := none
  symbol : Option String := none
  name : Option String := none

/-- The running simulation state: the synthetic portfolio, the trades
accumulated so far, and the counters of `Date.now()` / `Math.random()`
calls made so far. -/
structure Sim where
  cash : ℚ
  positions : List BTPosition
  totalValue : ℚ
  trades : List BTrade
  clockCtr : ℕ
  randCtr : ℕ

/-- Embedding of `BacktestEngine.updatePortfolioValue`. -/
def btUpdatePortfolioValue (s : Sim) (dp : DataPoint) : Sim :=
  let positions := s.positions.map (fun p =>
    { p with currentValue := p.quantity * dp.price,
             unrealizedPnL := p.quantity * dp.price - p.cost })
  { s with positions := positions
           totalValue := positions.foldl (fun acc p => acc + p.quantity * dp.price) s.cash }

/-- Embedding of `BacktestEngine.openPosition`: three `Date.now()` calls (the id,
`entryTime`, the trade `timestamp`) and one `Math.random()` call
(the id), in source order. -/
def btOpenPosition (s : Sim) (e : Env) (token : BTToken)
    (price size conf : ℚ) : Sim :=
  let c0 := e.clock s.clockCtr
  let r0 := e.rand s.randCtr
  let c1 := e.clock (s.clockCtr + 1)
  let c2 := e.clock (s.clockCtr + 2)
  let quantity := size / price
  let position : BTPosition :=
    { id := (c0, r0), symbol := token.symbol, quantity := quantity,
      entryPrice := price, cost := size, entryTime := c1,
      confidence := conf, currentValue := size, unrealizedPnL := 0 }
  let trade : BTrade :=
    { id := (c0, r0), action := "buy", symbol := token.symbol,
      quantity := quantity, price := price, value := size, timestamp := c2,
      confidence := some conf }
  { s with
      positions := s.positions ++ [position]
      cash := s.cash - size
      trades := s.trades ++ [trade]
      clockCtr := s.clockCtr + 3
      randCtr := s.randCtr + 1 }

/-- Embedding of `BacktestEngine.closePosition`: two `Date.now()` calls (the
trade `timestamp`, then `holdTime`). -/
def btClosePosition (s : Sim) (e : Env) (p : BTPosition)
    (price : ℚ) (reason : String) : Sim :=
  let value := p.quantity * price
  let pnl := value - p.cost
  let c0 := e.clock s.clockCtr
  let c1 := e.clock (s.clockCtr + 1)
  let trade : BTrade :=
    { id := p.id, action := "sell", symbol := p.symbol,
      quantity := p.quantity, price := price, value := value, timestamp := c0,
      pnl := some pnl, reason := some reason, holdTime := some (c1 - p.entryTime) }
  { s with
      cash := s.cash + value
      positions := s.positions.filter (fun q => q.id ≠ p.id)
      trades := s.trades ++ [trade]
      clockCtr := s.clockCtr + 2 }

/-- Embedding of `BacktestEngine.checkExitSignals`: collect the exit decisions over
the open positions, then close the collected ones in order. -/
def btCheckExitSignals (s : Sim) (e : Env) (dp : DataPoint)
    (strat : Strategy) : Sim :=
  let toClose := s.positions.filterMap (fun p =>
    (strat.shouldExit p dp.price (dp.timestamp - p.entryTime)).map (fun r => (p, r)))
  toClose.foldl (fun acc pr => btClosePosition acc e pr.1 dp.price pr.2) s

/-- Embedding of `BacktestEngine.checkEntrySignals`. -/
def btCheckEntrySignals (s : Sim) (e : Env) (dp : DataPoint)
    (strat : Strategy) (cfg : BTConfig) : Sim :=
  let token : BTToken :=
    { symbol := cfg.symbol.getD "TEST"
      name := cfg.name.getD "Test Token"
      current_price := dp.price
      price_change_percentage_24h := jsOr dp.change24h 0
      market_cap := jsOr dp.marketCap 1000000
      total_volume := jsOr dp.volume 100000 }
  let confidence := strat.analyzeConfidence token
  let maxPositions := match cfg.maxPositions with
    | none => 5
    | some n => if n = 0 then 5 else n
  if jsOr cfg.minConfidence (6/10) < confidence ∧ s.positions.length < maxPositions then
    let positionSize := strat.getPositionSize confidence s.totalValue
    if positionSize ≤ s.cash then btOpenPosition s e token dp.price positionSize confidence
    else s
  else s

/-- One iteration of the main loop of `runBacktest`. -/
def btStep (e : Env) (strat : Strategy) (cfg : BTConfig) (s : Sim)
    (dp : DataPoint) : Sim :=
  btCheckEntrySignals (btCheckExitSignals (btUpdatePortfolioValue s dp) e dp strat) e dp strat cfg

/-- Embedding of `BacktestEngine.runBacktest`, projected to the trade-record
sequence it produces.  `startTime = Date.now()` consumes the first
clock draw; the loop runs over the whole series; the remaining
positions (snapshot of the array, as `for..of` iterates the array the
loop started with) are closed at the last price with reason
`"backtest_end"`. -/
def runBacktestTrades (strat : Strategy) (historicalData : List DataPoint)
    (cfg : BTConfig) (e : Env) : List BTrade :=
  let s0 : Sim :=
    { cash := jsOr cfg.initialCash 1000, positions := [],
      totalValue := jsOr cfg.initialCash 1000, trades := [],
      clockCtr := 1, randCtr := 0 }
  let s1 := historicalData.foldl (btStep e strat cfg) s0
  let lastPrice := (historicalData.getLast?.map DataPoint.price).getD 0
  let s2 := s1.positions.foldl
    (fun acc p => btClosePosition acc e p lastPrice "backtest_end") s1
  s2.trades

/-! ## Concrete fixtures used by witnesses and counterexamples -/

/-- The configured values of the repository
(`src/config/config.js`: `maxPositionSize 100`, `maxPortfolioRisk
0.8`, `maxActivePositions 10`; `riskPercentage` defaults to 2 in
`TradingAgent.initialize`). -/
def cfg0 : TradingConfig :=
  { maxPositionSize := 100, riskPercentage := 2, maxPortfolioRisk := 8/10,
    maxActivePositions := 10 }

/-- A low-cap, high-volatility, low-volume token. -/
def memeToken : Token :=
  { symbol := "pepe", name := "pepe", market_cap := some 50000,
    price_change_percentage_24h := some 60, total_volume := some 20000 }

/-- An opportunity on `memeToken` with full confidence. -/
def memeOpportunity : Opportunity :=
  { token := some memeToken, entry := 1, stopLoss := 95/100,
    takeProfit := 115/100, confidence := some 1 }

/-- A token with only a symbol and a name. -/
def plainToken (s : String) : Token :=
  { symbol := s, name := s, market_cap := none,
    price_change_percentage_24h := none, total_volume := none }

/-- Variant of `cfg0` with `maxActivePositions` configured to 1. -/
def cfgTight : TradingConfig :=
  { maxPositionSize := 100, riskPercentage := 2, maxPortfolioRisk := 8/10,
    maxActivePositions := 1 }

/-- Four open positions of 25 USD in four distinct tokens. -/
def fourPositions : List PortfolioPosition :=
  [{ token := plainToken "aaa", size := 25 }, { token := plainToken "bbb", size := 25 },
   { token := plainToken "ccc", size := 25 }, { token := plainToken "ddd", size := 25 }]

/-- One open position of 50 USD. -/
def onePosition : List PortfolioPosition :=
  [{ token := plainToken "sol", size := 50 }]

/-- An open long position whose current price has breached the stop
loss (`0.9 ≤ 0.95`), with running P&L `-10`. -/
def buyPosition : Position :=
  { id := "pos_1", token := plainToken "sol", action := "buy", size := 100,
    entryPrice := 1, currentPrice := 9/10, stopLoss := 95/100,
    takeProfit := 115/100, confidence := 1, openTime := 0, status := "open",
    pnl := -10 }

/-- A trading state holding exactly `buyPosition`. -/
def st0 : TradingState :=
  { activePositions := [buyPosition], tradingHistory := [], totalPnL := 0,
    dailyPnL := 0 }

/-- Two closed (sold) trades: one win of 5, one loss of 2. -/
def sellTrades : List ATrade :=
  [{ action := "sell", pnl := some 5 }, { action := "sell", pnl := some (-2) }]

/-- A deterministic strategy double: constant confidence `0.7`, never
exits, always sizes 10. -/
def btStrategy : Strategy :=
  { analyzeConfidence := fun _ => 7/10
    shouldExit := fun _ _ _ => none
    getPositionSize := fun _ _ => 10 }

/-- A one-point historical price series. -/
def btData : List DataPoint := [{ timestamp := 0, price := 1 }]

/-- The default backtest configuration (no overrides). -/
def btCfg : BTConfig := {}

/-- An environment whose clock reads `n` at its `n`-th call. -/
def envA : Env := { clock := fun n => (n : ℚ), rand := fun _ => 0 }

/-- A syntactically distinct copy of `envA` with the same streams. -/
def envA2 : Env := { clock := fun n => (n : ℚ), rand := fun _ => 0 }

/-- An environment whose clock starts 1000 later. -/
def envB : Env := { clock := fun n => (n : ℚ) + 1000, rand := fun _ => 0 }

/-- The buy record `runBacktestTrades btStrategy btData btCfg envA`
produces. -/
def tradeBuyA : BTrade :=
  { id := (1, 0), action := "buy", symbol := "TEST", quantity := 10, price := 1,
    value := 10, timestamp := 3, confidence := some (7/10) }

/-- The closing record of that run (`backtest_end`). -/
def tradeSellA : BTrade :=
  { id := (1, 0), action := "sell", symbol := "TEST", quantity := 10, price := 1,
    value := 10, timestamp := 4, pnl := some 0, reason := some "backtest_end",
    holdTime := some 3 }

/-- The buy record of the same run under `envB`. -/
def tradeBuyB : BTrade :=
  { id := (1001, 0), action := "buy", symbol := "TEST", quantity := 10, price := 1,
    value := 10, timestamp := 1003, confidence := some (7/10) }

/-- The closing record of the run under `envB`. -/
def tradeSellB : BTrade :=
  { id := (1001, 0), action := "sell", symbol := "TEST", quantity := 10, price := 1,
    value := 10, timestamp := 1004, pnl := some 0, reason := some "backtest_end",
    holdTime := some 3 }

/-! ## Theorems -/

/-- C1 counterexample: with `maxPositionSize = 100`,
`riskPercentage = 2` and `portfolioValue = 100` the portfolio cap is
`2`, but the minimum floor is applied afterwards, so the returned size
is `10`, violating `size ≤ portfolioValue * riskPercentage / 100`. -/
theorem calculatePositionSize_violates_portfolio_cap :
    calculatePositionSize
      { maxPositionSize := 100, riskPercentage := 2, maxPortfolioRisk := 8/10,
        maxActivePositions := 10 }
      1 { overall := 0, recommendation := .PROCEED } 100 = 10 ∧
    ¬ (calculatePositionSize
      { maxPositionSize := 100, riskPercentage := 2, maxPortfolioRisk := 8/10,
        maxActivePositions := 10 }
      1 { overall := 0, recommendation := .PROCEED } 100 ≤ 100 * (2/100)) := by
  constructor
  · norm_num [calculatePositionSize, min_def, max_def]
  · norm_num [calculatePositionSize, min_def, max_def]

/-- C1 (amended): the size returned by `calculatePositionSize`
satisfies all three bounds provided `confidence ∈ [0,1]`,
`riskScore.overall ∈ [0,1]`, and both upper caps
(`maxPositionSize` and `portfolioValue * riskPercentage / 100`) are at
least the minimum position size 10; the floor is applied after the
caps, so below that the floor wins. -/
theorem calculatePositionSize_bounds (cfg : TradingConfig) (confidence : ℚ)
    (riskScore : RiskScore) (portfolioValue : ℚ)
    (hc0 : 0 ≤ confidence) (hc1 : confidence ≤ 1)
    (hr0 : 0 ≤ riskScore.overall) (_hr1 : riskScore.overall ≤ 1)
    (hmps : 10 ≤ cfg.maxPositionSize)
    (hcap : 10 ≤ portfolioValue * (cfg.riskPercentage / 100)) :
    calculatePositionSize cfg confidence riskScore portfolioValue ≤ cfg.maxPositionSize ∧
    calculatePositionSize cfg confidence riskScore portfolioValue
      ≤ portfolioValue * (cfg.riskPercentage / 100) ∧
    10 ≤ calculatePositionSize cfg confidence riskScore portfolioValue := by
  unfold calculatePositionSize
  have hfac : confidence * (1 - riskScore.overall) ≤ 1 :=
    le_trans (mul_le_of_le_one_right hc0 (by linarith)) hc1
  have hbase : cfg.maxPositionSize * confidence * (1 - riskScore.overall)
      ≤ cfg.maxPositionSize := by
    calc cfg.maxPositionSize * confidence * (1 - riskScore.overall)
        = cfg.maxPositionSize * (confidence * (1 - riskScore.overall)) := by ring
      _ ≤ cfg.maxPositionSize * 1 :=
          mul_le_mul_of_nonneg_left hfac (by linarith)
      _ = cfg.maxPositionSize := by ring
  refine ⟨?_, ?_, le_max_right _ _⟩
  · exact max_le (le_trans (min_le_left _ _) hbase) hmps
  · exact max_le (min_le_right _ _) hcap

/-- C1 witness (Scenario B of the spec): confidence `0.8`, risk `0.2`,
portfolio `1000` gives size `20`, inside all three bounds. -/
theorem calculatePositionSize_bounds_witness :
    calculatePositionSize
      { maxPositionSize := 100, riskPercentage := 2, maxPortfolioRisk := 8/10,
        maxActivePositions := 10 }
      (8/10) { overall := 2/10, recommendation := .PROCEED } 1000 ≤ 100 ∧
    calculatePositionSize
      { maxPositionSize := 100, riskPercentage := 2, maxPortfolioRisk := 8/10,
        maxActivePositions := 10 }
      (8/10) { overall := 2/10, recommendation := .PROCEED } 1000 ≤ 1000 * ((2 : ℚ)/100) ∧
    10 ≤ calculatePositionSize
      { maxPositionSize := 100, riskPercentage := 2, maxPortfolioRisk := 8/10,
        maxActivePositions := 10 }
      (8/10) { overall := 2/10, recommendation := .PROCEED } 1000 :=
  calculatePositionSize_bounds _ _ _ _ (by norm_num) (by norm_num) (by norm_num)
    (by norm_num) (by norm_num) (by norm_num)

/-- C9: `calculatePositionSize` always returns at least 10 (the floor
is the last step), so the below-minimum rejection branch of the evaluator
`positionSize < 10` can never fire. -/
theorem calculatePositionSize_floor_unreachable_reject (cfg : TradingConfig)
    (confidence : ℚ) (riskScore : RiskScore) (portfolioValue : ℚ) :
    10 ≤ calculatePositionSize cfg confidence riskScore portfolioValue ∧
    belowMinimumReject (calculatePositionSize cfg confidence riskScore portfolioValue)
      = false := by
  have h : 10 ≤ calculatePositionSize cfg confidence riskScore portfolioValue :=
    le_max_right _ _
  exact ⟨h, by simp [belowMinimumReject, not_lt.mpr h]⟩

/-- C6: `validateStopLoss` accepts exactly the closed band
`[2%, 20%]` of relative stop-loss distance (the reported `percentage`
is that distance times 100); the boundary values 2% and 20% are valid
while 1.9% and 20.1% are not; and an invalid stop loss is replaced by
`entry * (1 - 0.05)` by the evaluator instead of being rejected. -/
theorem validateStopLoss_band_and_autocorrect :
    (∀ entry stopLoss : ℚ,
      (validateStopLoss entry stopLoss).isValid = true ↔
        (2 ≤ (validateStopLoss entry stopLoss).percentage ∧
         (validateStopLoss entry stopLoss).percentage ≤ 20)) ∧
    (validateStopLoss 100 98).isValid = true ∧
    (validateStopLoss 100 80).isValid = true ∧
    (validateStopLoss 100 (981/10)).isValid = false ∧
    (validateStopLoss 100 (799/10)).isValid = false ∧
    (∀ entry stopLoss : ℚ, (validateStopLoss entry stopLoss).isValid = false →
      adjustStopLoss entry stopLoss = entry * (1 - 5/100)) := by
  refine ⟨?_, by norm_num [validateStopLoss, abs_of_pos],
    by norm_num [validateStopLoss, abs_of_pos],
    by norm_num [validateStopLoss, abs_of_pos],
    by norm_num [validateStopLoss, abs_of_pos], ?_⟩
  · intro entry stopLoss
    simp only [validateStopLoss, decide_eq_true_eq]
    constructor
    · rintro ⟨h1, h2⟩
      constructor <;> nlinarith
    · rintro ⟨h1, h2⟩
      constructor <;> nlinarith
  · intro entry stopLoss h
    simp [adjustStopLoss, h]

/-- C6 witness: a 1% stop loss is invalid and gets replaced by the 5%
default. -/
theorem validateStopLoss_band_witness :
    adjustStopLoss 100 99 = 100 * (1 - 5/100) :=
  validateStopLoss_band_and_autocorrect.2.2.2.2.2 100 99
    (by norm_num [validateStopLoss, abs_of_pos])

/-- C7: when the scoring body of `assessTradeRisk` fails (the modeled
failure: the opportunity has no `token` object, so the very first
property access throws), the `catch` yields `overall = 1.0` and
`REJECT` instead of propagating the exception. -/
theorem assessTradeRisk_failure_rejects (cfg : TradingConfig)
    (opportunity : Opportunity) (currentPositions : List Position)
    (portfolioValue : ℚ) (utcHour : ℕ)
    (h : opportunity.token = none) :
    (assessTradeRisk cfg opportunity currentPositions portfolioValue utcHour).overall = 1 ∧
    (assessTradeRisk cfg opportunity currentPositions portfolioValue utcHour).recommendation
      = Recommendation.REJECT := by
  simp [assessTradeRisk, h]

/-- C7 witness: a concrete token-less opportunity is scored
`overall = 1`, `REJECT`. -/
theorem assessTradeRisk_failure_rejects_witness :
    (assessTradeRisk
      { maxPositionSize := 100, riskPercentage := 2, maxPortfolioRisk := 8/10,
        maxActivePositions := 10 }
      { token := none, entry := 1, stopLoss := 95/100, takeProfit := 115/100,
        confidence := some 1 }
      [] 1000 12).overall = 1 ∧
    (assessTradeRisk
      { maxPositionSize := 100, riskPercentage := 2, maxPortfolioRisk := 8/10,
        maxActivePositions := 10 }
      { token := none, entry := 1, stopLoss := 95/100, takeProfit := 115/100,
        confidence := some 1 }
      [] 1000 12).recommendation = Recommendation.REJECT :=
  assessTradeRisk_failure_rejects _ _ _ _ _ rfl

theorem marketCapRisk_bounds (x : ℚ) : 0 ≤ marketCapRisk x ∧ marketCapRisk x ≤ 4/10 := by
  unfold marketCapRisk; split_ifs <;> norm_num

theorem volatilityRisk_bounds (x : ℚ) : 0 ≤ volatilityRisk x ∧ volatilityRisk x ≤ 3/10 := by
  unfold volatilityRisk; split_ifs <;> norm_num

theorem liquidityRisk_bounds (x : ℚ) : 0 ≤ liquidityRisk x ∧ liquidityRisk x ≤ 3/10 := by
  unfold liquidityRisk; split_ifs <;> norm_num

theorem positionSizeRisk_bounds (x y : ℚ) :
    0 ≤ positionSizeRisk x y ∧ positionSizeRisk x y ≤ 2/10 := by
  unfold positionSizeRisk; split_ifs <;> norm_num

theorem correlationRisk_bounds (ps : List Position) (t : Token) :
    0 ≤ correlationRisk ps t ∧ correlationRisk ps t ≤ 2/10 := by
  unfold correlationRisk; split_ifs <;> norm_num

theorem timingRisk_bounds (h : ℕ) : 0 ≤ timingRisk h ∧ timingRisk h ≤ 1/10 := by
  unfold timingRisk; split_ifs <;> norm_num

/-- C2 counterexample: a low-cap (`50k`), high-volatility (`60%`),
low-volume (`20k`) opportunity whose sized position exceeds 10% of the
portfolio, scored outside major trading hours, accumulates
`0.4 + 0.3 + 0.3 + 0.2 + 0.1 = 1.3 > 1`. -/
theorem assessTradeRisk_overall_exceeds_one :
    (assessTradeRisk cfg0 memeOpportunity [] 100 23).overall = 13/10 ∧
    ¬ ((assessTradeRisk cfg0 memeOpportunity [] 100 23).overall ≤ 1) := by
  constructor <;>
    norm_num [assessTradeRisk, assessTradeRiskCore, marketCapRisk, volatilityRisk,
      liquidityRisk, positionSizeRisk, correlationRisk, timingRisk, jsOr, jsRatioGt,
      cfg0, memeToken, memeOpportunity, List.filter, abs_of_pos]

/-- C2 (amended): the `overall` score of `assessTradeRisk` always lies
in `[0, 1.5]` — the factor increments are nonnegative and their
maxima sum to `0.4 + 0.3 + 0.3 + 0.2 + 0.2 + 0.1 = 1.5`, not 1. -/
theorem assessTradeRisk_overall_bounds (cfg : TradingConfig)
    (opportunity : Opportunity) (currentPositions : List Position)
    (portfolioValue : ℚ) (utcHour : ℕ) :
    0 ≤ (assessTradeRisk cfg opportunity currentPositions portfolioValue utcHour).overall ∧
    (assessTradeRisk cfg opportunity currentPositions portfolioValue utcHour).overall
      ≤ 3/2 := by
  cases h : opportunity.token with
  | none =>
      have he : assessTradeRisk cfg opportunity currentPositions portfolioValue utcHour
          = { overall := 1, recommendation := .REJECT, factorError := some 1 } := by
        unfold assessTradeRisk; rw [h]
      rw [he]
      norm_num
  | some t =>
      have he : assessTradeRisk cfg opportunity currentPositions portfolioValue utcHour
          = assessTradeRiskCore cfg t opportunity.entry opportunity.confidence
              currentPositions portfolioValue utcHour := by
        unfold assessTradeRisk; rw [h]
      rw [he]
      simp only [assessTradeRiskCore]
      obtain ⟨m0, m1⟩ := marketCapRisk_bounds (jsOr t.market_cap 0)
      obtain ⟨v0, v1⟩ := volatilityRisk_bounds |jsOr t.price_change_percentage_24h 0|
      obtain ⟨l0, l1⟩ := liquidityRisk_bounds (jsOr t.total_volume 0)
      obtain ⟨s0, s1⟩ := positionSizeRisk_bounds
        (opportunity.entry * jsOr opportunity.confidence (1/2) * cfg.maxPositionSize)
        portfolioValue
      obtain ⟨c0, c1⟩ := correlationRisk_bounds currentPositions t
      obtain ⟨t0, t1⟩ := timingRisk_bounds utcHour
      constructor <;> linarith

/-- C5 counterexample: with `maxActivePositions = 1`, four fully
invested positions (exposure `1 > 0.8`, so the exposure check sets
`HIGH`) but position count `4 > 1`: the later count check ASSIGNS
`MEDIUM`, overwriting the `HIGH` escalation (concentration is `25%`
per token, below the 30% that would restore `HIGH`). -/
theorem assessPortfolioRisk_high_overwritten :
    exposureExceeds cfgTight
      (fourPositions.foldl (fun sum pos => sum + pos.size) 0)
      (calculatePortfolioValue fourPositions { sol := none }) = true ∧
    (assessPortfolioRisk cfgTight fourPositions { sol := none }).riskLevel
      = RiskLevel.MEDIUM := by
  constructor <;>
    norm_num [assessPortfolioRisk, exposureExceeds, jsRatioGt, calculatePortfolioValue,
      jsOr, concentrationExceeds, symbolTotals, addSymbolTotal, cfgTight, fourPositions,
      plainToken, List.foldl, List.filter, List.any, List.isEmpty]

/-- C5 (amended): the `HIGH` escalation from the exposure check does
reach the result provided the later position-count and position-size
checks do not fire (each of those ASSIGNS `MEDIUM`, overwriting
`HIGH`); the concentration check can only re-assign `HIGH`, so no
hypothesis about it is needed. -/
theorem assessPortfolioRisk_exposure_high (cfg : TradingConfig)
    (positions : List PortfolioPosition) (walletBalance : WalletBalance)
    (hexp : exposureExceeds cfg
      (positions.foldl (fun sum pos => sum + pos.size) 0)
      (calculatePortfolioValue positions walletBalance) = true)
    (hcount : positions.length ≤ cfg.maxActivePositions)
    (hsize : ∀ p ∈ positions, p.size ≤ cfg.maxPositionSize) :
    (assessPortfolioRisk cfg positions walletBalance).riskLevel = RiskLevel.HIGH := by
  have h2 : ¬ (positions.length > cfg.maxActivePositions) := not_lt.mpr hcount
  have h3 : positions.filter (fun pos => decide (cfg.maxPositionSize < pos.size)) = [] := by
    rw [List.filter_eq_nil_iff]
    intro p hp
    simp [not_lt.mpr (hsize p hp)]
  simp only [assessPortfolioRisk, hexp, h2, h3, if_true, if_false, ite_false,
    List.length_nil, gt_iff_lt, lt_self_iff_false, decide_True, decide_False]
  split_ifs <;> rfl

/-- C5 witness: a single 50 USD position against an empty wallet is
full exposure with no overwriting check firing, so `riskLevel` is
`HIGH`. -/
theorem assessPortfolioRisk_exposure_high_witness :
    (assessPortfolioRisk cfg0 onePosition { sol := none }).riskLevel = RiskLevel.HIGH :=
  assessPortfolioRisk_exposure_high cfg0 onePosition { sol := none }
    (by norm_num [exposureExceeds, jsRatioGt, calculatePortfolioValue, jsOr,
      onePosition, plainToken, cfg0, List.foldl])
    (by norm_num [onePosition, cfg0])
    (by intro p hp
        rw [onePosition, List.mem_singleton] at hp
        subst hp
        norm_num [plainToken, cfg0])

/-- C3 counterexample: closing `buyPosition` twice is NOT idempotent —
`shouldClosePosition` never inspects `status`, so the second call adds
the P&L to `totalPnL` again (`-20`, not `-10`) and appends a second
closed-trade record (history length `2`, not `1`). -/
theorem closePosition_double_close_counterexample :
    (closePosition (closePosition st0 buyPosition 1).1
        (closePosition st0 buyPosition 1).2 1).1.totalPnL = -20 ∧
    (closePosition st0 buyPosition 1).1.totalPnL = -10 ∧
    (closePosition (closePosition st0 buyPosition 1).1
        (closePosition st0 buyPosition 1).2 1).1.tradingHistory.length = 2 ∧
    (closePosition st0 buyPosition 1).1.tradingHistory.length = 1 := by
  norm_num [closePosition, shouldClosePosition, st0, buyPosition, plainToken]

/-- C3 (amended): a second `closePosition` on an already-closed
position whose exit condition still holds leaves `activePositions`
unchanged (the id filter is idempotent), but adds the position `pnl`
to `totalPnL` a second time and appends a second history record —
closing is not idempotent on `totalPnL` or the history. -/
theorem closePosition_second_close_double_counts (st : TradingState)
    (p : Position) (now : ℚ) (r : String)
    (h : shouldClosePosition p now = some r) :
    (closePosition (closePosition st p now).1
        (closePosition st p now).2 now).1.activePositions
      = (closePosition st p now).1.activePositions ∧
    (closePosition (closePosition st p now).1
        (closePosition st p now).2 now).1.totalPnL
      = (closePosition st p now).1.totalPnL + p.pnl ∧
    (closePosition (closePosition st p now).1
        (closePosition st p now).2 now).1.tradingHistory.length
      = (closePosition st p now).1.tradingHistory.length + 1 := by
  have hp2 : shouldClosePosition
      { p with status := "closed", closeTime := some now,
               closePrice := some p.currentPrice, closeReason := some r } now
      = some r := by
    rw [← h]; rfl
  simp only [closePosition, h, hp2]
  refine ⟨?_, by simp, by simp⟩
  rw [List.filter_filter]
  congr 1
  funext q
  exact Bool.and_self _

/-- C3 witness: the double-count equation instantiated on the concrete
stop-loss-breached position. -/
theorem closePosition_second_close_double_counts_witness :
    (closePosition (closePosition st0 buyPosition 1).1
        (closePosition st0 buyPosition 1).2 1).1.totalPnL
      = (closePosition st0 buyPosition 1).1.totalPnL + buyPosition.pnl :=
  (closePosition_second_close_double_counts st0 buyPosition 1 "stop_loss"
    (by norm_num [shouldClosePosition, buyPosition])).2.1

/-- C8: on a non-empty closed-trade set the profit factor of the analyzer
is `totalWins / totalLosses` when the losses are positive, the
explicit `Infinity` sentinel when losses are zero but wins positive,
and `0` when both are zero. -/
theorem analyzeProfitability_profitFactor (trades : List ATrade)
    (h : closedTradesOf trades ≠ []) :
    (0 < totalLossesOf trades →
      (analyzeProfitability trades).profitFactor
        = ProfitFactor.num (totalWinsOf trades / totalLossesOf trades)) ∧
    (totalLossesOf trades = 0 → 0 < totalWinsOf trades →
      (analyzeProfitability trades).profitFactor = ProfitFactor.infinite) ∧
    (totalLossesOf trades = 0 → totalWinsOf trades = 0 →
      (analyzeProfitability trades).profitFactor = ProfitFactor.num 0) := by
  have hne : (closedTradesOf trades).isEmpty = false := by
    cases he : closedTradesOf trades with
    | nil => exact absurd he h
    | cons a as => rfl
  refine ⟨fun hL => ?_, fun hL0 hW => ?_, fun hL0 hW0 => ?_⟩
  · simp [analyzeProfitability, hne, hL]
  · simp [analyzeProfitability, hne, hL0, hW]
  · simp [analyzeProfitability, hne, hL0, hW0]

/-- C8 witness: trades with a 5 win and a 2 loss give profit factor
`5 / 2`. -/
theorem analyzeProfitability_profitFactor_witness :
    (analyzeProfitability sellTrades).profitFactor = ProfitFactor.num (5/2) := by
  have h := (analyzeProfitability_profitFactor sellTrades
    (by simp [closedTradesOf, sellTrades, List.filter])).1
    (by norm_num [totalLossesOf, losingOf, closedTradesOf, sellTrades, tradePnl,
      List.filter, List.foldl])
  rw [h]
  norm_num [totalWinsOf, winningOf, totalLossesOf, losingOf, closedTradesOf,
    sellTrades, tradePnl, List.filter, List.foldl]

theorem refreshPosition_action (p : Position) (newPrice : ℚ) :
    (refreshPosition p newPrice).action = p.action := rfl

theorem modifyAt_refresh_action (price : ℚ) :
    ∀ (l : List Position) (i : ℕ), (∀ p ∈ l, p.action = "buy") →
      ∀ p ∈ modifyAt l i (fun q => refreshPosition q price), p.action = "buy"
  | [], i, _, p, hp => by simp [modifyAt] at hp
  | a :: as, 0, hl, p, hp => by
      simp only [modifyAt, List.mem_cons] at hp
      rcases hp with h | h
      · rw [h, refreshPosition_action]; exact hl a (List.mem_cons_self a as)
      · exact hl p (List.mem_cons_of_mem a h)
  | a :: as, Nat.succ n, hl, p, hp => by
      simp only [modifyAt, List.mem_cons] at hp
      rcases hp with h | h
      · rw [h]; exact hl a (List.mem_cons_self a as)
      · exact modifyAt_refresh_action price as n
          (fun q hq => hl q (List.mem_cons_of_mem a hq)) p h

/-- In every lifecycle-reachable trading state, every active position
and every history entry carries action `"buy"` — the decision builder
hard-codes `action: "buy"` and the close path copies the action of
the position. -/
theorem reachable_actions (st : TradingState) (h : ReachableState st) :
    (∀ p ∈ st.activePositions, p.action = "buy") ∧
    (∀ e ∈ st.tradingHistory, e.pos.action = "buy") := by
  induction h with
  | init => exact ⟨by simp, by simp⟩
  | openPaper st t opportunity sentiment ac ps rs id now hst ih =>
      obtain ⟨ihA, ihH⟩ := ih
      constructor
      · intro p hp
        simp only [executePaperTrade, List.mem_append, List.mem_singleton] at hp
        rcases hp with h | h
        · exact ihA p h
        · rw [h]; rfl
      · intro e he
        simp only [executePaperTrade, List.mem_append, List.mem_singleton] at he
        rcases he with h | h
        · exact ihH e h
        · rw [h]; rfl
  | refresh st i newPrice hst ih =>
      obtain ⟨ihA, ihH⟩ := ih
      constructor
      · intro p hp
        simp only [refreshPositionAt] at hp
        exact modifyAt_refresh_action newPrice st.activePositions i ihA p hp
      · intro e he
        exact ihH e he
  | close st p now hst hmem ih =>
      obtain ⟨ihA, ihH⟩ := ih
      cases hc : shouldClosePosition p now with
      | none =>
          have hid : (closePosition st p now).1 = st := by
            simp [closePosition, hc]
          rw [hid]
          exact ⟨ihA, ihH⟩
      | some r =>
          constructor
          · intro q hq
            simp only [closePosition, hc, List.mem_filter] at hq
            exact ihA q hq.1
          · intro e he
            simp only [closePosition, hc, List.mem_append, List.mem_singleton] at he
            rcases he with h | h
            · exact ihH e h
            · rw [h]; exact ihA p hmem

/-- C10: the analyzer counts only `action === "sell"` records, but the
open and close paths of the lifecycle manager only ever append records with
action `"buy"`; hence on every history produced solely by that path,
`analyzeProfitability` finds zero closed trades and returns the
all-zero report. -/
theorem lifecycle_history_zero_closed_trades (st : TradingState)
    (h : ReachableState st) :
    closedTradesOf (st.tradingHistory.map histToATrade) = [] ∧
    analyzeProfitability (st.tradingHistory.map histToATrade) = zeroProfitability := by
  have hbuy := (reachable_actions st h).2
  have hnil : closedTradesOf (st.tradingHistory.map histToATrade) = [] := by
    unfold closedTradesOf
    rw [List.filter_eq_nil_iff]
    intro a ha
    rw [List.mem_map] at ha
    obtain ⟨e, he, rfl⟩ := ha
    simp [histToATrade, hbuy e he]
  refine ⟨hnil, ?_⟩
  unfold analyzeProfitability
  rw [hnil]
  simp

/-- C10 witness: a history with one opened paper trade yields the
all-zero profitability report. -/
theorem lifecycle_history_zero_closed_trades_witness :
    analyzeProfitability
      ((executePaperTrade
          { activePositions := [], tradingHistory := [], totalPnL := 0, dailyPnL := 0 }
          (mkDecision memeToken memeOpportunity 0 1 50
            { overall := 0, recommendation := .PROCEED } 0)
          "pos_1" 0).tradingHistory.map histToATrade) = zeroProfitability :=
  (lifecycle_history_zero_closed_trades _
    (ReachableState.openPaper _ memeToken memeOpportunity 0 1 50
      { overall := 0, recommendation := .PROCEED } "pos_1" 0
      ReachableState.init)).2

theorem runBacktestTrades_envA :
    runBacktestTrades btStrategy btData btCfg envA = [tradeBuyA, tradeSellA] := by
  norm_num [runBacktestTrades, btStep, btCheckEntrySignals, btCheckExitSignals,
    btUpdatePortfolioValue, btOpenPosition, btClosePosition, jsOr, btStrategy,
    btData, btCfg, envA, tradeBuyA, tradeSellA, List.foldl, List.filterMap]

theorem runBacktestTrades_envB :
    runBacktestTrades btStrategy btData btCfg envB = [tradeBuyB, tradeSellB] := by
  norm_num [runBacktestTrades, btStep, btCheckEntrySignals, btCheckExitSignals,
    btUpdatePortfolioValue, btOpenPosition, btClosePosition, jsOr, btStrategy,
    btData, btCfg, envB, tradeBuyB, tradeSellB, List.foldl, List.filterMap]

/-- C4 counterexample: two runs of `runBacktest` with the identical
one-point price series, identical strategy outputs and identical
configuration, but started at different wall-clock times, produce
different trade-record sequences — the ids and timestamps come from
`Date.now()` / `Math.random()` inside the engine, not from the listed
inputs. -/
theorem runBacktest_not_input_deterministic :
    runBacktestTrades btStrategy btData btCfg envA
      ≠ runBacktestTrades btStrategy btData btCfg envB := by
  rw [runBacktestTrades_envA, runBacktestTrades_envB]
  norm_num [tradeBuyA, tradeBuyB, tradeSellA, tradeSellB, Prod.ext_iff]

/-- C4 (amended): the backtest is deterministic relative to the
ambient clock and RNG: runs with identical price series, strategy,
configuration AND identical `Date.now()` / `Math.random()` streams
produce identical trade-record sequences; the listed inputs alone do
not determine the ids, timestamps and hold durations. -/
theorem runBacktest_deterministic_given_env (strat : Strategy)
    (historicalData : List DataPoint) (cfg : BTConfig) (e1 e2 : Env)
    (hclock : e1.clock = e2.clock) (hrand : e1.rand = e2.rand) :
    runBacktestTrades strat historicalData cfg e1
      = runBacktestTrades strat historicalData cfg e2 := by
  cases e1 with
  | mk c1 r1 =>
    cases e2 with
    | mk c2 r2 =>
      have h1 : c1 = c2 := hclock
      have h2 : r1 = r2 := hrand
      subst h1
      subst h2
      rfl

/-- C4 witness: two environments with equal streams yield equal trade
sequences. -/
theorem runBacktest_deterministic_given_env_witness :
    runBacktestTrades btStrategy btData btCfg envA
      = runBacktestTrades btStrategy btData btCfg envA2 :=
  runBacktest_deterministic_given_env btStrategy btData btCfg envA envA2 rfl rfl

end AITrader
